import Mathlib

/-!
Shallow embedding of the `jaxxstorm/pulumi-chartmuseumx` component
(`src/index.ts`, plus the older variant `src/unnamed/part_000`).

The TypeScript constructor of `ChartMuseum` is a pure, synchronous
composition: it merges user arguments over defaults with a JavaScript
object spread, derives two inverted DISABLE-style strings, and declares
a fixed sequence of Pulumi resources (namespace, S3 bucket, IAM user,
IAM user policy, access key, Kubernetes secret, deployment, service).
We embed it as a pure Lean function from the inputs (component name,
optional user args, and the two `pulumi.Config` values `provider` and
`region`) to the list of declared resources together with an optional
error (the constructor throws `pulumi.RunError` on an unsupported
provider, after the namespace has already been declared).

JavaScript field semantics are modelled explicitly: a field of an
object literal may be *absent* or *present*, and a present field may
hold `undefined`.  We use `Option (Option α)`: the outer layer is key
presence (what the spread `{...defaults, ...args}` consults), the inner
layer is definedness (what property reads observe).
-/

namespace ChartMuseumX

/-- Reading a possibly-absent object field in JavaScript: an absent key
and a key holding `undefined` both read as `undefined`. -/
def jsRead {α : Type} (x : Option (Option α)) : Option α :=
  x.getD none

/-- JavaScript `!x` on a boolean-or-undefined value: `undefined` is
falsy, so `!undefined = true`. -/
def jsNot (x : Option Bool) : Bool :=
  !(x.getD false)

/-- JavaScript `String(b)` for a boolean. -/
def jsString (b : Bool) : String :=
  if b then "true" else "false"

/-- JavaScript `s.toUpperCase()` on the ASCII identifiers this program
uppercases, modelled as a character-wise upper-casing. -/
def jsToUpperCase (s : String) : String :=
  ⟨s.data.map Char.toUpper⟩

/-- The nested `service` argument object `{ type: string }`.  At the
JavaScript runtime level the `type` key may be absent or `undefined`;
both read as `undefined`, so we collapse them into one `Option`. -/
structure ServiceArgs where
  type : Option String
deriving DecidableEq, Repr

/-- `ChartMuseumArgs` from `src/index.ts`.  Every field is optional in
the interface; the outer `Option` is key presence in the object the
caller builds, the inner `Option` is definedness of the stored value. -/
structure ChartMuseumArgs where
  «namespace» : Option (Option String) := none
  replicas : Option (Option Nat) := none
  api : Option (Option Bool) := none
  metrics : Option (Option Bool) := none
  service : Option (Option ServiceArgs) := none
deriving DecidableEq, Repr

/-- `ChartMuseumDefaults` from `src/index.ts`: every key present and
defined. -/
def ChartMuseumDefaults : ChartMuseumArgs where
  «namespace» := some (some "chartmuseum")
  replicas := some (some 1)
  service := some (some ⟨some "ClusterIP"⟩)
  api := some (some false)
  metrics := some (some false)

/-- The user args object when the caller passes none (`args?` absent):
spreading `undefined` contributes no keys. -/
def emptyArgs : ChartMuseumArgs := {}

/-- The JavaScript spread `{...ChartMuseumDefaults, ...args}`: for each
key, the user's binding wins whenever the key is present in `args`
(even when its value is `undefined`); otherwise the default binding is
kept.  Nested objects are taken wholesale, never merged recursively. -/
def spreadArgs (user : ChartMuseumArgs) : ChartMuseumArgs where
  «namespace» := user.namespace.or ChartMuseumDefaults.namespace
  replicas := user.replicas.or ChartMuseumDefaults.replicas
  api := user.api.or ChartMuseumDefaults.api
  metrics := user.metrics.or ChartMuseumDefaults.metrics
  service := user.service.or ChartMuseumDefaults.service

/-- The fixed label pair `{app: "chartmuseum", release: name}`. -/
structure Labels where
  app : String
  release : String
deriving DecidableEq, Repr

def mkLabels (name : String) : Labels :=
  ⟨"chartmuseum", name⟩

/-- An environment entry's value: a literal string, the (unknown at
composition time) bucket-name output `this.bucket.bucket`, or a
`valueFrom.secretKeyRef` into the composition's secret. -/
inductive EnvValue where
  | lit (s : String)
  | bucketNameOutput
  | secretKeyRef (key : String)
deriving DecidableEq, Repr

structure EnvVar where
  name : String
  value : EnvValue
deriving DecidableEq, Repr

/-- Stable identifiers for the resources a composition can declare.
In the source, parents and dependencies are object references
(`this.namespace`, `this.bucket`, `iamUser`); we model those references
with this enumeration. -/
inductive RId where
  | «namespace»
  | bucket
  | iamUser
  | iamUserPolicy
  | accessKey
  | secret
  | deployment
  | service
deriving DecidableEq, Repr

/-- A resource's parent: the top-level component (`this`) or another
declared resource. -/
inductive Parent where
  | component
  | res (r : RId)
deriving DecidableEq, Repr

/-- One statement of the IAM policy document. -/
structure PolicyStatement where
  sid : String
  effect : String
  actions : List String
  resource : String
deriving DecidableEq, Repr

structure PolicyDoc where
  version : String
  statement : List PolicyStatement
deriving DecidableEq, Repr

/-- The policy document built in `this.bucket.bucket.apply(bucketName
=> JSON.stringify({...}))` (src/index.ts lines 76-93), as a function of
the resolved bucket name. -/
def iamPolicyDoc (bucketName : String) : PolicyDoc where
  version := "2012-10-17"
  statement :=
    [ { sid := "AllowListObjects"
        effect := "Allow"
        actions := ["s3:ListBucket"]
        resource := "arn:aws:s3:::" ++ bucketName },
      { sid := "AllowObjectsCRUD"
        effect := "Allow"
        actions := ["s3:DeleteObject", "s3:GetObject", "s3:PutObject"]
        resource := "arn:aws:s3:::" ++ bucketName ++ "/*" } ]

/-- The kind-specific data of each declared resource that the
specification talks about. -/
inductive Payload where
  | namespaceP (nsName : Option String) (labels : Labels)
  | bucketP
  | iamUserP (path : String)
  | iamUserPolicyP (policy : String → PolicyDoc)
  | accessKeyP
  | secretP (labels : Labels) (dataKeys : List String)
  | deploymentP (labels selector templateLabels : Labels)
      (replicas : Option Nat) (env : List EnvVar)
  | serviceP (labels : Labels) (specType : Option String) (selector : Labels)

/-- A declared resource: its identity, Pulumi type token, logical name,
parent, explicit dependencies and payload. -/
structure Resource where
  rid : RId
  kind : String
  logicalName : String
  parent : Parent
  dependsOn : List RId
  payload : Payload

/-- The error thrown on the `default:` branch of the provider switch:
`new pulumi.RunError("Must specify a cloud provider")`.  The spec
refers to this failure mode as `UnsupportedProviderError`. -/
inductive ComposeError where
  | runError (msg : String)
deriving DecidableEq, Repr

/-- The outcome of running the constructor: the resources declared
before it returned or threw, and the error if it threw. -/
structure ComposeResult where
  declared : List Resource
  error : Option ComposeError

/-- The composition performed by `ChartMuseum`'s constructor in
`src/index.ts`, as a function of the component name, the optional user
args, and the two `pulumi.Config` values `provider` and `region`. -/
def compose (name : String) (args : Option ChartMuseumArgs)
    (provider region : String) : ComposeResult :=
  let margs := spreadArgs (args.getD emptyArgs)
  let api := jsString (jsNot (jsRead margs.api))
  let metrics := jsString (jsNot (jsRead margs.metrics))
  let labels := mkLabels name
  let nsRes : Resource :=
    { rid := .namespace
      kind := "kubernetes:core/v1:Namespace"
      logicalName := "chartmuseum-" ++ name ++ "-namespace"
      parent := .component
      dependsOn := []
      payload := .namespaceP (jsRead margs.namespace) labels }
  if provider = "aws" then
    let bucketRes : Resource :=
      { rid := .bucket
        kind := "aws:s3:Bucket"
        logicalName := "chartmuseum-" ++ name ++ "-bucket"
        parent := .component
        dependsOn := []
        payload := .bucketP }
    let iamUserRes : Resource :=
      { rid := .iamUser
        kind := "aws:iam:User"
        logicalName := "chartmuseum-" ++ name ++ "-iam-user"
        parent := .component
        dependsOn := []
        payload := .iamUserP "/chartmuseum/" }
    let policyRes : Resource :=
      { rid := .iamUserPolicy
        kind := "aws:iam:UserPolicy"
        logicalName := "chartmuseum-" ++ name ++ "-iam-policy"
        parent := .res .iamUser
        dependsOn := []
        payload := .iamUserPolicyP iamPolicyDoc }
    let accessKeyRes : Resource :=
      { rid := .accessKey
        kind := "aws:iam:AccessKey"
        logicalName := "chartmuseum-" ++ name ++ "-iam-accesskey"
        parent := .res .iamUser
        dependsOn := []
        payload := .accessKeyP }
    let secretRes : Resource :=
      { rid := .secret
        kind := "kubernetes:core/v1:Secret"
        logicalName := "chartmuseum-" ++ name ++ "-secret"
        parent := .res .namespace
        dependsOn := []
        payload := .secretP labels ["AWS_ACCESS_KEY_ID", "AWS_SECRET_ACCESS_KEY"] }
    let cloudProvider := "amazon"
    let env : List EnvVar :=
      [ ⟨"DISABLE_API", .lit api⟩,
        ⟨"DISABLE_METRICS", .lit metrics⟩,
        ⟨"LOG_JSON", .lit "true"⟩,
        ⟨"PROV_POST_FORM_FIELD_NAME", .lit "prov"⟩,
        ⟨"STORAGE", .lit cloudProvider⟩,
        ⟨"STORAGE_" ++ jsToUpperCase cloudProvider ++ "_REGION", .lit region⟩,
        ⟨"STORAGE_" ++ jsToUpperCase cloudProvider ++ "_BUCKET", .bucketNameOutput⟩,
        ⟨"AWS_ACCESS_KEY_ID", .secretKeyRef "AWS_ACCESS_KEY_ID"⟩,
        ⟨"AWS_SECRET_ACCESS_KEY", .secretKeyRef "AWS_SECRET_ACCESS_KEY"⟩ ]
    let deploymentRes : Resource :=
      { rid := .deployment
        kind := "kubernetes:apps/v1:Deployment"
        logicalName := "chartmuseum-" ++ name ++ "-deployment"
        parent := .res .namespace
        dependsOn := [.bucket]
        payload := .deploymentP labels labels labels (jsRead margs.replicas) env }
    let serviceRes : Resource :=
      { rid := .service
        kind := "kubernetes:core/v1:Service"
        logicalName := "chartmuseum-" ++ name ++ "-service"
        parent := .res .namespace
        dependsOn := []
        payload := .serviceP labels ((jsRead margs.service).bind (·.type)) labels }
    { declared := [nsRes, bucketRes, iamUserRes, policyRes, accessKeyRes,
                   secretRes, deploymentRes, serviceRes]
      error := none }
  else
    { declared := [nsRes]
      error := some (.runError "Must specify a cloud provider") }

/-! The older variant of the component in `src/unnamed/part_000`.  It
has a required `storage: {cloud, region}` argument instead of the
`pulumi.Config` values, declares only bucket, namespace, deployment
and service, and builds the region environment-variable name from
`this.args.storage.region.toUpperCase()` (line 120). -/

/-- The `storage` argument object of the part_000 variant.  The
TypeScript interface makes both keys required strings. -/
structure StorageArgs where
  cloud : String
  region : String
deriving DecidableEq, Repr

/-- `ChartMuseumArgs` of the part_000 variant.  `storage` is required
by the interface, so when an args object is supplied its `storage` key
is present and defined; we track only its presence for the spread. -/
structure ChartMuseumArgsV0 where
  «namespace» : Option (Option String) := none
  replicas : Option (Option Nat) := none
  api : Option (Option Bool) := none
  metrics : Option (Option Bool) := none
  service : Option (Option ServiceArgs) := none
  storage : Option StorageArgs := none
deriving DecidableEq, Repr

/-- `ChartMuseumDefaults` of the part_000 variant. -/
def ChartMuseumDefaultsV0 : ChartMuseumArgsV0 where
  «namespace» := some (some "chartmuseum")
  replicas := some (some 1)
  service := some (some ⟨some "ClusterIP"⟩)
  api := some (some false)
  metrics := some (some false)
  storage := some ⟨"amazon", "us-west-2"⟩

def emptyArgsV0 : ChartMuseumArgsV0 := {}

/-- The spread `{ ...ChartMuseumDefaults, ...args}` of the part_000
variant. -/
def spreadArgsV0 (user : ChartMuseumArgsV0) : ChartMuseumArgsV0 where
  «namespace» := user.namespace.or ChartMuseumDefaultsV0.namespace
  replicas := user.replicas.or ChartMuseumDefaultsV0.replicas
  api := user.api.or ChartMuseumDefaultsV0.api
  metrics := user.metrics.or ChartMuseumDefaultsV0.metrics
  service := user.service.or ChartMuseumDefaultsV0.service
  storage := user.storage.or ChartMuseumDefaultsV0.storage

/-- The composition performed by the part_000 variant's constructor. -/
def composeV0 (name : String) (args : Option ChartMuseumArgsV0) : ComposeResult :=
  let margs := spreadArgsV0 (args.getD emptyArgsV0)
  let api := jsString (jsNot (jsRead margs.api))
  let metrics := jsString (jsNot (jsRead margs.metrics))
  let labels := mkLabels name
  let storage := margs.storage.getD ⟨"amazon", "us-west-2"⟩
  let bucketRes : Resource :=
    { rid := .bucket
      kind := "aws:s3:Bucket"
      logicalName := name ++ "-bucket"
      parent := .component
      dependsOn := []
      payload := .bucketP }
  let nsRes : Resource :=
    { rid := .namespace
      kind := "kubernetes:core/v1:Namespace"
      logicalName := name ++ "-namespace"
      parent := .component
      dependsOn := []
      payload := .namespaceP (jsRead margs.namespace) labels }
  let env : List EnvVar :=
    [ ⟨"DISABLE_API", .lit api⟩,
      ⟨"DISABLE_METRICS", .lit metrics⟩,
      ⟨"LOG_JSON", .lit "true"⟩,
      ⟨"PROV_POST_FORM_FIELD_NAME", .lit "prov"⟩,
      ⟨"STORAGE", .lit storage.cloud⟩,
      ⟨"STORAGE_" ++ jsToUpperCase storage.region ++ "_REGION", .lit storage.region⟩,
      ⟨"STORAGE_" ++ jsToUpperCase storage.cloud ++ "_BUCKET", .bucketNameOutput⟩ ]
  let deploymentRes : Resource :=
    { rid := .deployment
      kind := "kubernetes:apps/v1:Deployment"
      logicalName := name ++ "-deployment"
      parent := .res .namespace
      dependsOn := [.bucket]
      payload := .deploymentP labels labels labels (jsRead margs.replicas) env }
  let serviceRes : Resource :=
    { rid := .service
      kind := "kubernetes:core/v1:Service"
      logicalName := name ++ "-service"
      parent := .res .namespace
      dependsOn := []
      payload := .serviceP labels ((jsRead margs.service).bind (·.type)) labels }
  { declared := [bucketRes, nsRes, deploymentRes, serviceRes]
    error := none }

/-! Accessors used to state the claims. -/

/-- Look up a declared resource by identity. -/
def ComposeResult.find (g : ComposeResult) (r : RId) : Option Resource :=
  g.declared.find? (fun x => x.rid = r)

/-- The deployment's container environment list, when a deployment was
declared. -/
def ComposeResult.deploymentEnv (g : ComposeResult) : Option (List EnvVar) :=
  match g.find .deployment with
  | some r =>
    match r.payload with
    | .deploymentP _ _ _ _ env => some env
    | _ => none
  | none => none

/-- The names of the deployment's environment entries, in order. -/
def ComposeResult.envNames (g : ComposeResult) : Option (List String) :=
  (g.deploymentEnv).map (·.map (·.name))

/-- The value of the first environment entry with the given name. -/
def ComposeResult.envValue (g : ComposeResult) (n : String) : Option EnvValue :=
  (g.deploymentEnv).bind (fun env => (env.find? (·.name = n)).map (·.value))

/-- The deployment's metadata labels. -/
def ComposeResult.deploymentLabels (g : ComposeResult) : Option Labels :=
  match g.find .deployment with
  | some r =>
    match r.payload with
    | .deploymentP labels _ _ _ _ => some labels
    | _ => none
  | none => none

/-- The service's `spec.selector`. -/
def ComposeResult.serviceSelector (g : ComposeResult) : Option Labels :=
  match g.find .service with
  | some r =>
    match r.payload with
    | .serviceP _ _ selector => some selector
    | _ => none
  | none => none

/-- The service's `spec.type` (inner `none` = unset/undefined). -/
def ComposeResult.serviceSpecType (g : ComposeResult) : Option (Option String) :=
  match g.find .service with
  | some r =>
    match r.payload with
    | .serviceP _ specType _ => some specType
    | _ => none
  | none => none

/-- The parent of a declared resource. -/
def ComposeResult.parentOf (g : ComposeResult) (r : RId) : Option Parent :=
  (g.find r).map (·.parent)

/-- The dependency list of a declared resource. -/
def ComposeResult.dependsOf (g : ComposeResult) (r : RId) : Option (List RId) :=
  (g.find r).map (·.dependsOn)

/-- Whether every resource's parent is the component or a resource
declared strictly earlier in the list.  This is exactly "ownership
forms a tree rooted at the top-level component, never a cycle". -/
def wellParentedFrom (seen : List RId) : List Resource → Bool
  | [] => true
  | r :: rs =>
    (match r.parent with
     | .component => true
     | .res p => seen.contains p) && wellParentedFrom (r.rid :: seen) rs

def ComposeResult.wellParented (g : ComposeResult) : Bool :=
  wellParentedFrom [] g.declared

/-- The policy-document function attached to the declared IAM user
policy, when one was declared. -/
def ComposeResult.policyOf (g : ComposeResult) : Option (String → PolicyDoc) :=
  match g.find .iamUserPolicy with
  | some r =>
    match r.payload with
    | .iamUserPolicyP p => some p
    | _ => none
  | none => none

/-- The `api` flag of the resolved configuration
`{...ChartMuseumDefaults, ...args}` as the constructor reads it
(`this.args.api`). -/
def resolvedApi (a : Option ChartMuseumArgs) : Option Bool :=
  jsRead (spreadArgs (a.getD emptyArgs)).api

/-- The `metrics` flag of the resolved configuration. -/
def resolvedMetrics (a : Option ChartMuseumArgs) : Option Bool :=
  jsRead (spreadArgs (a.getD emptyArgs)).metrics

/-! ## Claims -/

/-- C1: the claim states that in every emitted environment list the
region and bucket variable names are `STORAGE_<PROVIDER_ID_UPPERCASE>_REGION`
and `STORAGE_<PROVIDER_ID_UPPERCASE>_BUCKET`.  The part_000 variant
violates this: at the default configuration (provider identifier
"amazon", region "us-west-2") it emits the region variable under the
name `STORAGE_US-WEST-2_REGION` — the uppercased *region*, not the
uppercased provider — and emits no `STORAGE_AMAZON_REGION` entry at
all, while the `src/index.ts` composition does emit
`STORAGE_AMAZON_REGION` as the claim says. -/
theorem c1_v0_region_env_name_built_from_region :
    (composeV0 "cm" none).envNames =
      some ["DISABLE_API", "DISABLE_METRICS", "LOG_JSON", "PROV_POST_FORM_FIELD_NAME",
            "STORAGE", "STORAGE_US-WEST-2_REGION", "STORAGE_AMAZON_BUCKET"] ∧
    (composeV0 "cm" none).envValue "STORAGE_AMAZON_REGION" = none ∧
    (compose "cm" none "aws" "us-west-2").envValue "STORAGE_AMAZON_REGION"
      = some (.lit "us-west-2") ∧
    (compose "cm" none "aws" "us-west-2").envValue "STORAGE_AMAZON_BUCKET"
      = some .bucketNameOutput :=
  ⟨rfl, rfl, rfl, rfl⟩

/-- C2 counterexample: a user args object whose `service` value is the
nested object `{}` (the `type` key absent).  The claim predicts that
the absent key keeps its default, so the resolved service type would be
`"ClusterIP"`; the code's shallow spread replaces the default nested
object wholesale, so the service's `spec.type` is undefined. -/
theorem c2_nested_object_replaced_wholesale :
    (compose "cm" (some { service := some (some ⟨none⟩) }) "aws" "us-west-2").serviceSpecType
      = some none ∧
    (compose "cm" (some { service := some (some ⟨none⟩) }) "aws" "us-west-2").serviceSpecType
      ≠ some (some "ClusterIP") :=
  ⟨rfl, by decide⟩

/-- C2 amended: the merge `{...ChartMuseumDefaults, ...args}` is a
shallow, top-level spread.  A `service` key present in the user args
overrides the default wholesale — the resolved service type is exactly
what the user's nested object holds, with no key-by-key merging — while
a top-level key absent from the user args keeps its default (`service`
absent yields type `"ClusterIP"`; `api` absent yields
`DISABLE_API = "true"` from the default `api: false`). -/
theorem c2_shallow_merge_top_level_only (n r : String) (a : ChartMuseumArgs) :
    (∀ s, a.service = some s →
      (compose n (some a) "aws" r).serviceSpecType
        = some (s.bind (fun x => x.type))) ∧
    (a.service = none →
      (compose n (some a) "aws" r).serviceSpecType = some (some "ClusterIP")) ∧
    (a.api = none →
      (compose n (some a) "aws" r).envValue "DISABLE_API" = some (.lit "true")) := by
  have h1 : (compose n (some a) "aws" r).serviceSpecType
      = some ((jsRead (spreadArgs a).service).bind (fun x => x.type)) := rfl
  have h2 : (compose n (some a) "aws" r).envValue "DISABLE_API"
      = some (.lit (jsString (jsNot (resolvedApi (some a))))) := rfl
  refine ⟨?_, ?_, ?_⟩
  · intro s hs
    rw [h1]
    simp [jsRead, spreadArgs, hs]
  · intro hs
    rw [h1]
    simp [jsRead, spreadArgs, hs, ChartMuseumDefaults]
  · intro ha
    rw [h2]
    simp [resolvedApi, jsRead, jsNot, jsString, spreadArgs, ha, ChartMuseumDefaults]

/-- Witness for C2's amended theorem: a user-supplied nested service
object `{type: "NodePort"}` replaces the default wholesale, and with
`api` absent the emitted `DISABLE_API` is `"true"`. -/
theorem c2_shallow_merge_witness :
    (compose "cm" (some { service := some (some ⟨some "NodePort"⟩) }) "aws" "us-west-2").serviceSpecType
      = some (some "NodePort") ∧
    (compose "cm" (some { service := some (some ⟨some "NodePort"⟩) }) "aws" "us-west-2").envValue "DISABLE_API"
      = some (.lit "true") :=
  ⟨(c2_shallow_merge_top_level_only "cm" "us-west-2"
      { service := some (some ⟨some "NodePort"⟩) }).1 (some ⟨some "NodePort"⟩) rfl,
   (c2_shallow_merge_top_level_only "cm" "us-west-2"
      { service := some (some ⟨some "NodePort"⟩) }).2.2 rfl⟩

/-- C3: for any provider identifier other than `"aws"`, the
composition fails with the unsupported-provider error (the
`pulumi.RunError` the spec calls `UnsupportedProviderError`) and
declares no bucket, no IAM user, no IAM user policy, no access key and
no secret. -/
theorem c3_unsupported_provider_fails_without_resources
    (n : String) (a : Option ChartMuseumArgs) (p r : String) (h : p ≠ "aws") :
    (compose n a p r).error = some (.runError "Must specify a cloud provider") ∧
    (compose n a p r).find .bucket = none ∧
    (compose n a p r).find .iamUser = none ∧
    (compose n a p r).find .iamUserPolicy = none ∧
    (compose n a p r).find .accessKey = none ∧
    (compose n a p r).find .secret = none := by
  simp [compose, ComposeResult.find, if_neg h, List.find?]

/-- Witness for C3 at the concrete unsupported provider `"gcp"`. -/
theorem c3_unsupported_provider_witness :
    (compose "cm" none "gcp" "us-west-2").error
      = some (.runError "Must specify a cloud provider") ∧
    (compose "cm" none "gcp" "us-west-2").find .bucket = none ∧
    (compose "cm" none "gcp" "us-west-2").find .iamUser = none ∧
    (compose "cm" none "gcp" "us-west-2").find .iamUserPolicy = none ∧
    (compose "cm" none "gcp" "us-west-2").find .accessKey = none ∧
    (compose "cm" none "gcp" "us-west-2").find .secret = none :=
  c3_unsupported_provider_fails_without_resources "cm" none "gcp" "us-west-2" (by decide)

/-- C4 counterexample: the claim states the access key is owned by the
top-level component, but in the code (`src/index.ts` line 97) its
parent is the IAM user. -/
theorem c4_accesskey_owned_by_iam_user :
    (compose "cm" none "aws" "us-west-2").parentOf .accessKey = some (.res .iamUser) ∧
    (compose "cm" none "aws" "us-west-2").parentOf .accessKey ≠ some .component :=
  ⟨rfl, by decide⟩

/-- C4 amended: ownership forms a tree rooted at the top-level
component with no cycle (every parent is the component or an
earlier-declared resource); the deployment, service and secret are
owned by the namespace; the bucket and the IAM user are owned by the
top-level component; the access key and the IAM user policy are owned
by the IAM user, not by the component. -/
theorem c4_ownership_tree (n : String) (a : Option ChartMuseumArgs) (r : String) :
    (compose n a "aws" r).wellParented = true ∧
    (compose n a "aws" r).parentOf .namespace = some .component ∧
    (compose n a "aws" r).parentOf .bucket = some .component ∧
    (compose n a "aws" r).parentOf .iamUser = some .component ∧
    (compose n a "aws" r).parentOf .iamUserPolicy = some (.res .iamUser) ∧
    (compose n a "aws" r).parentOf .accessKey = some (.res .iamUser) ∧
    (compose n a "aws" r).parentOf .secret = some (.res .namespace) ∧
    (compose n a "aws" r).parentOf .deployment = some (.res .namespace) ∧
    (compose n a "aws" r).parentOf .service = some (.res .namespace) :=
  ⟨rfl, rfl, rfl, rfl, rfl, rfl, rfl, rfl, rfl⟩

/-- C5: composition is deterministic — two runs on identical inputs
produce the same resource graph, hence identical environment-variable
orderings and label sets. -/
theorem c5_composition_deterministic
    (n : String) (a : Option ChartMuseumArgs) (p r : String)
    (g1 g2 : ComposeResult)
    (h1 : g1 = compose n a p r) (h2 : g2 = compose n a p r) :
    g1 = g2 ∧ g1.envNames = g2.envNames ∧ g1.deploymentLabels = g2.deploymentLabels := by
  subst h1
  subst h2
  exact ⟨rfl, rfl, rfl⟩

/-- Witness for C5 at a concrete input. -/
theorem c5_deterministic_witness :
    compose "cm" none "aws" "us-west-2" = compose "cm" none "aws" "us-west-2" :=
  (c5_composition_deterministic "cm" none "aws" "us-west-2" _ _ rfl rfl).1

/-- C6: the emitted `DISABLE_API` value is the string `"false"` when
the resolved `api` flag is `true` and `"true"` when it is `false`, and
the same strict inversion holds between `metrics` and
`DISABLE_METRICS`. -/
theorem c6_disable_flags_invert
    (n : String) (a : Option ChartMuseumArgs) (r : String) (b c : Bool)
    (hb : resolvedApi a = some b) (hc : resolvedMetrics a = some c) :
    (compose n a "aws" r).envValue "DISABLE_API"
      = some (.lit (if b then "false" else "true")) ∧
    (compose n a "aws" r).envValue "DISABLE_METRICS"
      = some (.lit (if c then "false" else "true")) := by
  have h1 : (compose n a "aws" r).envValue "DISABLE_API"
      = some (.lit (jsString (jsNot (resolvedApi a)))) := rfl
  have h2 : (compose n a "aws" r).envValue "DISABLE_METRICS"
      = some (.lit (jsString (jsNot (resolvedMetrics a)))) := rfl
  rw [hb] at h1
  rw [hc] at h2
  refine ⟨?_, ?_⟩
  · rw [h1]
    cases b <;> rfl
  · rw [h2]
    cases c <;> rfl

/-- Witness for C6: `api = true`, `metrics = false` yield
`DISABLE_API = "false"` and `DISABLE_METRICS = "true"`. -/
theorem c6_disable_flags_witness :
    (compose "cm" (some { api := some (some true), metrics := some (some false) })
        "aws" "us-west-2").envValue "DISABLE_API" = some (.lit "false") ∧
    (compose "cm" (some { api := some (some true), metrics := some (some false) })
        "aws" "us-west-2").envValue "DISABLE_METRICS" = some (.lit "true") :=
  c6_disable_flags_invert "cm"
    (some { api := some (some true), metrics := some (some false) })
    "us-west-2" true false rfl rfl

/-- C7: in both variants, the deployment's explicit dependency list is
exactly the bucket, so it always includes the bucket. -/
theorem c7_deployment_depends_on_bucket
    (n : String) (a : Option ChartMuseumArgs) (r : String)
    (a0 : Option ChartMuseumArgsV0) :
    (compose n a "aws" r).dependsOf .deployment = some [.bucket] ∧
    (composeV0 n a0).dependsOf .deployment = some [.bucket] :=
  ⟨rfl, rfl⟩

/-- C8: the service's selector equals the deployment's label set, the
deployment's own selector and template labels agree with it, and all
equal the fixed pair `{app: "chartmuseum", release: name}`. -/
theorem c8_service_selector_matches_deployment_labels
    (n : String) (a : Option ChartMuseumArgs) (r : String) :
    (compose n a "aws" r).serviceSelector = (compose n a "aws" r).deploymentLabels ∧
    (compose n a "aws" r).deploymentLabels = some ⟨"chartmuseum", n⟩ :=
  ⟨rfl, rfl⟩

/-- C9: the IAM user policy declared by the composition is exactly
`iamPolicyDoc`, which for any bucket name has exactly two statements —
`s3:ListBucket` on the bucket ARN and delete/get/put-object on the
bucket's objects ARN — and every statement's resource is the bucket or
its objects, with no wildcard grant outside the bucket. -/
theorem c9_policy_least_privilege
    (n b : String) (a : Option ChartMuseumArgs) (r : String) :
    (compose n a "aws" r).policyOf = some iamPolicyDoc ∧
    (iamPolicyDoc b).statement =
      [ { sid := "AllowListObjects", effect := "Allow",
          actions := ["s3:ListBucket"],
          resource := "arn:aws:s3:::" ++ b },
        { sid := "AllowObjectsCRUD", effect := "Allow",
          actions := ["s3:DeleteObject", "s3:GetObject", "s3:PutObject"],
          resource := "arn:aws:s3:::" ++ b ++ "/*" } ] ∧
    (iamPolicyDoc b).statement.length = 2 ∧
    (iamPolicyDoc b).statement.all
      (fun st => st.resource == "arn:aws:s3:::" ++ b
        || st.resource == "arn:aws:s3:::" ++ b ++ "/*") = true := by
  refine ⟨rfl, rfl, rfl, ?_⟩
  simp [iamPolicyDoc]

/-- C10: a key present in the user args with value `undefined`
overrides the default rather than keeping it: `service: undefined`
leaves the service's `spec.type` unset, and `api: undefined` is treated
as falsy, yielding `DISABLE_API = "true"`. -/
theorem c10_explicit_undefined_overrides
    (n r : String) (a : ChartMuseumArgs)
    (hs : a.service = some none) (ha : a.api = some none) :
    (compose n (some a) "aws" r).serviceSpecType = some none ∧
    (compose n (some a) "aws" r).envValue "DISABLE_API" = some (.lit "true") := by
  have h1 : (compose n (some a) "aws" r).serviceSpecType
      = some ((jsRead (spreadArgs a).service).bind (fun x => x.type)) := rfl
  have h2 : (compose n (some a) "aws" r).envValue "DISABLE_API"
      = some (.lit (jsString (jsNot (resolvedApi (some a))))) := rfl
  refine ⟨?_, ?_⟩
  · rw [h1]
    simp [jsRead, spreadArgs, hs]
  · rw [h2]
    simp [resolvedApi, jsRead, jsNot, jsString, spreadArgs, ha]

/-- Witness for C10 at the concrete args `{service: undefined, api:
undefined}`. -/
theorem c10_explicit_undefined_witness :
    (compose "cm" (some { service := some none, api := some none })
        "aws" "us-west-2").serviceSpecType = some none ∧
    (compose "cm" (some { service := some none, api := some none })
        "aws" "us-west-2").envValue "DISABLE_API" = some (.lit "true") :=
  c10_explicit_undefined_overrides "cm" "us-west-2"
    { service := some none, api := some none } rfl rfl

end ChartMuseumX
